import Mathlib

/-!
Verification of two qutebrowser source files against their specification:
  * `qutebrowser/completion/models/miscmodels.py` — completion-model builders
  * `scripts/mkvenv.py` — developer virtualenv setup script

The Python code is shallowly embedded: the external registries consulted by
the completion builders (`objreg`, `cmdutils.cmd_dict`, `config`,
`configdata`) are an explicit `Env` record, builders thread the environment
explicitly (they only read it, which the frame theorems make precise), and
the setup script is embedded as a trace-producing computation over an
abstract system oracle that decides subprocess exit codes and filesystem
state, with `sys.exit` modelled as `Except Int`.
-/

namespace Miscmodels

/-- Modelled from the spec: `base.CompletionModel` (the class lives in
`completion/models/base.py`, which is not among the provided sources; the
spec describes completion models populated by the builders as categories of
items shown in dropdown/autocomplete widgets).  A category has a name and an
ordered list of items; an item is the list of column strings passed to
`new_item`.  Constructor keyword arguments that merely configure widget
presentation (`column_widths`, `dumb_sort`, `delete_cur_item`,
`columns_to_filter`) are recorded as passed. -/
structure Category where
  name : String
  items : List (List String)
deriving Repr, DecidableEq

/-- Modelled from the spec: the completion model object returned by each
builder.  `cats` holds the categories in creation order. -/
structure CompletionModel where
  columnWidths : Option (List Nat) := none
  dumbSortDescending : Bool := false
  hasDeleteCurItem : Bool := false
  columnsToFilter : Option (List Nat) := none
  cats : List Category := []
deriving Repr, DecidableEq

/-- Replace the element at index `i` (no-op when out of range). -/
def modifyIdx (l : List Category) (i : Nat) (f : Category → Category) :
    List Category :=
  match l, i with
  | [], _ => []
  | c :: cs, 0 => f c :: cs
  | c :: cs, Nat.succ j => c :: modifyIdx cs j f

/-- Modelled from the spec: `model.new_category(name)` appends a fresh empty
category and returns a handle to it (embedded as its index). -/
def newCategory (m : CompletionModel) (name : String) :
    CompletionModel × Nat :=
  ({ m with cats := m.cats ++ [⟨name, []⟩] }, m.cats.length)

/-- Modelled from the spec: `model.new_item(cat, *columns)` appends an item
(the column strings) to the category `cat`. -/
def newItem (m : CompletionModel) (cat : Nat) (cols : List String) :
    CompletionModel :=
  { m with cats := modifyIdx m.cats cat (fun c => { c with items := c.items ++ [cols] }) }

/-- A registered command object (`cmdutils.cmd_dict` values): its `name`,
`desc` and the `debug`, `hide`, `deprecated` annotations read by
`_get_cmd_completions`. -/
structure Cmd where
  name : String
  desc : String
  debug : Bool
  hide : Bool
  deprecated : Bool
deriving Repr, DecidableEq

/-- One window of `objreg.window_registry` together with its per-window
`tabbed-browser`: the `shutting_down` flag and, per tab, the pair
`(url().toDisplayString(), page_title(idx))`. -/
structure Window where
  winId : Nat
  shuttingDown : Bool
  tabs : List (String × String)
deriving Repr, DecidableEq

/-- Section data of `configdata.DATA`: the option names iterated by
`for optname in sectdata`, and the `descriptions` mapping.  `descriptions =
none` embeds an object without that attribute (`AttributeError` on access);
a missing key in the list embeds `KeyError`. -/
structure SectData where
  opts : List String
  descriptions : Option (List (String × String))
deriving Repr, DecidableEq

/-- The external registries the builders consult, plus the completion log.
`cmds` is `set(cmdutils.cmd_dict.values())` in its iteration order;
`cmdToKeys` is `objreg.get('key-config').get_reverse_bindings_for('normal')`;
`aliases` is `config.section('aliases')` in dict order; `argsDebug` is
`objreg.get('args').debug`; `quickmarks` / `bookmarks` are the managers'
`marks` dicts in insertion order; `sessions` is the outcome of
`objreg.get('session-manager').list_sessions()` (`Except.error` embeds an
`OSError`); `windows` is `objreg.window_registry` with each window's
tabbed-browser; `configSections` is `configdata.DATA`; `completionLog`
collects `log.completion` messages. -/
structure Env where
  cmds : List Cmd
  cmdToKeys : List (String × List String)
  aliases : List (String × String)
  argsDebug : Bool
  quickmarks : List (String × String)
  bookmarks : List (String × String)
  sessions : Except Unit (List String)
  windows : List Window
  configSections : List (String × SectData)
  completionLog : List String

/-- The registry contents of an environment (everything except the log):
the builders must leave this unchanged. -/
def Env.registries (e : Env) :=
  (e.cmds, e.cmdToKeys, e.aliases, e.argsDebug, e.quickmarks, e.bookmarks,
   e.sessions, e.windows, e.configSections)

/-- `cmd_to_keys.get(name, [])`. -/
def keysFor (m : List (String × List String)) (name : String) : List String :=
  ((m.find? (fun p => p.1 = name)).map Prod.snd).getD []

/-- A single quote character (`chr 39`), used by the alias description. -/
def sq : String := String.singleton (Char.ofNat 39)

/-- Whether a command passes the visibility test of `_get_cmd_completions`:
the negation of `hide_debug or hide_hidden or obj.deprecated` where
`hide_debug = obj.debug and not args.debug` and
`hide_hidden = obj.hide and not include_hidden`. -/
def keptCmd (argsDebug includeHidden : Bool) (c : Cmd) : Bool :=
  !((c.debug && !argsDebug) || (c.hide && !includeHidden) || c.deprecated)

/-- The tuple `(prefix + obj.name, obj.desc, bindings)` appended for a kept
command. -/
def cmdEntry (cmdToKeys : List (String × List String)) (pre : String)
    (c : Cmd) : String × String × String :=
  (pre ++ c.name, c.desc, String.intercalate ", " (keysFor cmdToKeys c.name))

/-- The tuple appended for an alias `(name, cmd)`:
`(name, "Alias for '{cmd}'", bindings)`. -/
def aliasEntry (cmdToKeys : List (String × List String))
    (p : String × String) : String × String × String :=
  (p.1, "Alias for " ++ sq ++ p.2 ++ sq,
   String.intercalate ", " (keysFor cmdToKeys p.1))

/-- `_get_cmd_completions(include_hidden, include_aliases, prefix='')`:
asserts `cmd_dict` is non-empty (`none` embeds the `AssertionError`), then
collects one entry per visible command of `set(cmd_dict.values())` and, when
`include_aliases`, one entry per alias of `config.section('aliases')`. -/
def _get_cmd_completions (env : Env) (includeHidden includeAliases : Bool)
    (pre : String) : Option (List (String × String × String)) :=
  if env.cmds.isEmpty then
    none
  else
    let cmdlist := env.cmds.foldl
      (fun acc obj =>
        if keptCmd env.argsDebug includeHidden obj then
          acc ++ [cmdEntry env.cmdToKeys pre obj]
        else acc) []
    let cmdlist := if includeAliases then
        cmdlist ++ env.aliases.map (aliasEntry env.cmdToKeys)
      else cmdlist
    some cmdlist

/-- `command()`: a model with column widths (20, 60, 20) and a single
"Commands" category filled from
`_get_cmd_completions(include_aliases=True, include_hidden=False)`.
`none` embeds a propagated `AssertionError`. -/
def command (env : Env) : Option CompletionModel × Env :=
  match _get_cmd_completions env false true "" with
  | none => (none, env)
  | some cmdlist =>
    let model : CompletionModel := { columnWidths := some [20, 60, 20] }
    let (model, cat) := newCategory model "Commands"
    let model := cmdlist.foldl
      (fun m e => newItem m cat [e.1, e.2.1, e.2.2]) model
    (some model, env)

/-- `str.splitlines()` line boundaries (LF, CR, VT, FF, FS, GS, RS, NEL,
LINE SEPARATOR, PARAGRAPH SEPARATOR; CRLF is handled as one boundary by
`pySplitlines`). -/
def isLineBoundary (c : Char) : Bool :=
  c = Char.ofNat 10 || c = Char.ofNat 13 || c = Char.ofNat 11 ||
  c = Char.ofNat 12 || c = Char.ofNat 28 || c = Char.ofNat 29 ||
  c = Char.ofNat 30 || c = Char.ofNat 133 || c = Char.ofNat 8232 ||
  c = Char.ofNat 8233

/-- Python `str.splitlines()` on a list of characters: splits at line
boundaries, treating CRLF as a single boundary, and produces no trailing
empty line (so the empty string yields `[]`). -/
def splitlinesAux : List Char → List Char → List (List Char)
  | [], acc => if acc.isEmpty then [] else [acc.reverse]
  | [c], acc =>
    if isLineBoundary c then [acc.reverse] else [(c :: acc).reverse]
  | c :: d :: rest, acc =>
    if c = Char.ofNat 13 ∧ d = Char.ofNat 10 then
      acc.reverse :: splitlinesAux rest []
    else if isLineBoundary c then
      acc.reverse :: splitlinesAux (d :: rest) []
    else
      splitlinesAux (d :: rest) (c :: acc)

/-- Python `s.splitlines()`. -/
def pySplitlines (s : String) : List String :=
  (splitlinesAux s.data []).map List.asString

/-- The raw outcome of `sectdata.descriptions[optname]`: `none` when the
access raises (`AttributeError` when `descriptions` is absent, `KeyError`
when the option has no entry). -/
def lookupDesc (sd : SectData) (opt : String) : Option String :=
  match sd.descriptions with
  | none => none
  | some d => (d.find? (fun p => p.1 = opt)).map Prod.snd

/-- The description computed by `helptopic()` for one settings option:
`sectdata.descriptions[optname]`, with `KeyError` / `AttributeError` caught
and replaced by `""`, and otherwise `desc.splitlines()[0]` — which raises
`IndexError` (embedded as `none`) when the stored description is the empty
string, since `"".splitlines()` is `[]`. -/
def optDesc (sd : SectData) (opt : String) : Option String :=
  match lookupDesc sd opt with
  | none => some ""
  | some s => (pySplitlines s).head?

/-- The items the Settings loop of `helptopic()` adds for one section:
`('{sectname}->{optname}', desc)` per option, `none` when any option raises. -/
def sectItems (sectname : String) (sd : SectData) :
    Option (List (List String)) :=
  sd.opts.foldr
    (fun opt acc =>
      match optDesc sd opt, acc with
      | some d, some rest => some ([sectname ++ "->" ++ opt, d] :: rest)
      | _, _ => none)
    (some [])

/-- All items of the "Settings" category of `helptopic()`, in section order
then option order. -/
def settingsItems (sections : List (String × SectData)) :
    Option (List (List String)) :=
  sections.foldr
    (fun p acc =>
      match sectItems p.1 p.2, acc with
      | some l, some rest => some (l ++ rest)
      | _, _ => none)
    (some [])

/-- `helptopic()`: a "Commands" category from
`_get_cmd_completions(include_aliases=False, include_hidden=True,
prefix=':')` followed by a "Settings" category with one item per
`configdata.DATA` option.  `none` embeds a propagated exception
(`AssertionError` from the command list, or `IndexError` from
`desc.splitlines()[0]` on an empty-string description). -/
def helptopic (env : Env) : Option CompletionModel × Env :=
  match _get_cmd_completions env true false ":" with
  | none => (none, env)
  | some cmdlist =>
    let model : CompletionModel := {}
    let (model, cat) := newCategory model "Commands"
    let model := cmdlist.foldl
      (fun m e => newItem m cat [e.1, e.2.1, e.2.2]) model
    let (model, cat2) := newCategory model "Settings"
    match settingsItems env.configSections with
    | none => (none, env)
    | some items =>
      (some (items.foldl (fun m it => newItem m cat2 it) model), env)

/-- `quickmark()`: one "Quickmarks" category with an item
`(name, url)` per entry of the quickmark-manager's `marks`. -/
def quickmark (env : Env) : CompletionModel × Env :=
  let model : CompletionModel := {}
  let (model, cat) := newCategory model "Quickmarks"
  let model := env.quickmarks.foldl
    (fun m p => newItem m cat [p.1, p.2]) model
  (model, env)

/-- `bookmark()`: one "Bookmarks" category with an item
`(url, title)` per entry of the bookmark-manager's `marks`. -/
def bookmark (env : Env) : CompletionModel × Env :=
  let model : CompletionModel := {}
  let (model, cat) := newCategory model "Bookmarks"
  let model := env.bookmarks.foldl
    (fun m p => newItem m cat [p.1, p.2]) model
  (model, env)

/-- `session()`: a "Sessions" category with one item per non-underscore
session name; an `OSError` from `list_sessions()` is caught and logged, and
the model built so far is still returned. -/
def session (env : Env) : CompletionModel × Env :=
  let model : CompletionModel := {}
  let (model, cat) := newCategory model "Sessions"
  match env.sessions with
  | Except.error _ =>
    (model, { env with completionLog :=
        env.completionLog ++ ["Failed to list sessions!"] })
  | Except.ok names =>
    let model := names.foldl
      (fun m name =>
        if !name.startsWith "_" then newItem m cat [name] else m)
      model
    (model, env)

/-- `buffer()`: one category per non-shutting-down window, with an item
`("{win_id}/{idx+1}", url, title)` per tab. -/
def buffer (env : Env) : CompletionModel × Env :=
  let model : CompletionModel :=
    { columnWidths := some [6, 40, 54]
      dumbSortDescending := true
      hasDeleteCurItem := true
      columnsToFilter := some [0, 1, 2] }
  let model := env.windows.foldl
    (fun m w =>
      if w.shuttingDown then m
      else
        let (m, cat) := newCategory m (toString w.winId)
        (w.tabs.enum.foldl
          (fun m2 t =>
            newItem m2 cat
              [toString w.winId ++ "/" ++ toString (t.1 + 1),
               t.2.1, t.2.2])
          m))
    model
  (model, env)

/-- `bind(_)`: like `command()` but with
`include_hidden=True, include_aliases=True`. -/
def bind (env : Env) : Option CompletionModel × Env :=
  match _get_cmd_completions env true true "" with
  | none => (none, env)
  | some cmdlist =>
    let model : CompletionModel := { columnWidths := some [20, 60, 20] }
    let (model, cat) := newCategory model "Commands"
    let model := cmdlist.foldl
      (fun m e => newItem m cat [e.1, e.2.1, e.2.2]) model
    (some model, env)

end Miscmodels

namespace Mkvenv

/-- An observable effect of `scripts/mkvenv.py`: console output
(`utils.print_col` / `utils.print_title` / `print()`), changing into the
repository root (`utils.change_cwd`), a `subprocess.run` invocation, the
removal (`shutil.rmtree`) or creation (`venv.create`) of the virtualenv
directory, and linking the system PyQt (`link_pyqt.link_pyqt`, whose module
is outside the provided sources and is kept abstract). -/
inductive Event where
  | chdir
  | printCol (msg color : String)
  | printTitle (t : String)
  | printBlank
  | runProcess (argv : List String)
  | rmtree (dir : String)
  | venvCreate (dir : String) (withPip : Bool)
  | linkPyqt (dir : String)
deriving Repr, DecidableEq

/-- How a run of (part of) the script ends: normal return, `sys.exit(code)`,
or an uncaught `AssertionError`. -/
inductive Outcome where
  | ok
  | exited (code : Int)
  | assertionError
deriving Repr, DecidableEq

/-- The ambient system the script runs against: the exit code
`subprocess.run(argv)` would produce, whether the virtualenv directory
exists, whether `os.name == 'nt'`, the (abstract) repository root
`REPO_ROOT`, and the file names in `misc/requirements/`. -/
structure Sys where
  exitCodes : List String → Int
  venvExists : String → Bool
  windows : Bool
  repoRoot : String
  reqFiles : List String

/-- A step that only emits events and returns normally. -/
def emit (es : List Event) : List Event × Outcome := (es, Outcome.ok)

/-- Sequential composition: the second step runs only when the first one
returned normally (`sys.exit` and `AssertionError` abort the script). -/
def andThen (a : List Event × Outcome) (b : Unit → List Event × Outcome) :
    List Event × Outcome :=
  match a with
  | (tr, Outcome.ok) => let r := b (); (tr ++ r.1, r.2)
  | (tr, o) => (tr, o)

/-- `str(venv_dir / subdir / executable)` with
`subdir = 'Scripts' if os.name == 'nt' else 'bin'` (the path separator is
abstracted to `/`). -/
def venvBin (sys : Sys) (venvDir exe : String) : String :=
  venvDir ++ "/" ++ (if sys.windows then "Scripts" else "bin") ++ "/" ++ exe

/-- The full argv `run_venv` passes to `subprocess.run`. -/
def runVenvArgv (sys : Sys) (venvDir exe : String) (args : List String) :
    List String :=
  venvBin sys venvDir exe :: args

/-- `run_venv(venv_dir, executable, *args)`: runs the argv with
`check=True`; a non-zero exit code raises `CalledProcessError`, which is
caught, an error message is printed, and the process exits with that code. -/
def run_venv (sys : Sys) (venvDir exe : String) (args : List String) :
    List Event × Outcome :=
  let argv := runVenvArgv sys venvDir exe args
  if sys.exitCodes argv = 0 then
    ([Event.runProcess argv], Outcome.ok)
  else
    ([Event.runProcess argv,
      Event.printCol "Subprocess failed, exiting" "red"],
     Outcome.exited (sys.exitCodes argv))

/-- `pip_install(venv_dir, *args)`: prints the command and runs
`python3 -m pip install *args` inside the virtualenv. -/
def pip_install (sys : Sys) (venvDir : String) (args : List String) :
    List Event × Outcome :=
  andThen
    (emit [Event.printCol ("venv$ pip install " ++ String.intercalate " " args)
            "blue"])
    (fun _ => run_venv sys venvDir "python3" (["-m", "pip", "install"] ++ args))

/-- `show_tox_error(pyqt_type)`: prints a deprecation notice for the `link`
and `binary` types and raises `AssertionError` otherwise. -/
def show_tox_error (pyqtType : String) : List Event × Outcome :=
  if pyqtType = "link" then
    ([Event.printBlank,
      Event.printCol ("tox -e mkvenv is deprecated. Please use " ++
        "scripts/mkvenv.py --pyqt-type link instead.") "red",
      Event.printBlank], Outcome.ok)
  else if pyqtType = "binary" then
    ([Event.printBlank,
      Event.printCol ("tox -e mkvenv-pypi is deprecated. Please use " ++
        "scripts/mkvenv.py instead.") "red",
      Event.printBlank], Outcome.ok)
  else ([], Outcome.assertionError)

/-- `delete_old_venv(venv_dir)`: removes the directory when it exists. -/
def delete_old_venv (sys : Sys) (venvDir : String) : List Event :=
  if sys.venvExists venvDir then
    [Event.printCol ("$ rm -r " ++ venvDir) "blue", Event.rmtree venvDir]
  else []

/-- `create_venv(venv_dir)`: `venv.create(venv_dir, with_pip=True)`. -/
def create_venv (venvDir : String) : List Event :=
  [Event.printCol ("$ python3 -m venv " ++ venvDir) "blue",
   Event.venvCreate venvDir true]

/-- `upgrade_pip(venv_dir)`. -/
def upgrade_pip (sys : Sys) (venvDir : String) : List Event × Outcome :=
  andThen (emit [Event.printTitle "Upgrading pip"])
    (fun _ => pip_install sys venvDir ["-U", "pip"])

/-- `pyqt_requirements_file(version)`: the requirements file for the chosen
PyQt version (no version suffix when `'auto'`). -/
def pyqt_requirements_file (sys : Sys) (version : String) : String :=
  let suffix := if version = "auto" then "" else "-" ++ version
  sys.repoRoot ++ "/misc/requirements/requirements-pyqt" ++ suffix ++ ".txt"

/-- `install_pyqt_binary(venv_dir, version)`. -/
def install_pyqt_binary (sys : Sys) (venvDir version : String) :
    List Event × Outcome :=
  andThen
    (emit [Event.printTitle "Installing PyQt from binary",
           Event.printCol ("No proprietary codec support will be available " ++
             "in qutebrowser.") "red"])
    (fun _ => pip_install sys venvDir
      ["-r", pyqt_requirements_file sys version,
       "--only-binary", "PyQt5,PyQtWebEngine"])

/-- `install_pyqt_source(venv_dir, version)`. -/
def install_pyqt_source (sys : Sys) (venvDir version : String) :
    List Event × Outcome :=
  andThen (emit [Event.printTitle "Installing PyQt from sources"])
    (fun _ => pip_install sys venvDir
      ["-r", pyqt_requirements_file sys version,
       "--verbose", "--no-binary", "PyQt5,PyQtWebEngine"])

/-- `install_pyqt_link(venv_dir)`: links the system-wide PyQt into the
virtualenv via the (abstract) `link_pyqt` helper. -/
def install_pyqt_link (venvDir : String) : List Event × Outcome :=
  emit [Event.printTitle "Linking system-wide PyQt", Event.linkPyqt venvDir]

/-- `install_requirements(venv_dir)`: installs `requirements.txt`. -/
def install_requirements (sys : Sys) (venvDir : String) :
    List Event × Outcome :=
  andThen (emit [Event.printTitle "Installing other qutebrowser dependencies"])
    (fun _ => pip_install sys venvDir
      ["-r", sys.repoRoot ++ "/requirements.txt"])

/-- `install_qutebrowser(venv_dir)`: installs the repository in editable
mode (`pip install -e REPO_ROOT`). -/
def install_qutebrowser (sys : Sys) (venvDir : String) :
    List Event × Outcome :=
  andThen (emit [Event.printTitle "Installing qutebrowser"])
    (fun _ => pip_install sys venvDir ["-e", sys.repoRoot])

/-- The parsed command line (`argparse.Namespace`), with the parser's
defaults as field defaults. -/
structure Args where
  keep : Bool := false
  venvDir : String := ".venv"
  pyqtVersion : String := "auto"
  pyqtType : String := "binary"
  toxError : Bool := false
deriving Repr, DecidableEq

/-- `main()`. -/
def main (sys : Sys) (args : Args) : List Event × Outcome :=
  let venvDir := args.venvDir
  andThen (emit [Event.chdir]) fun _ =>
  andThen (if args.toxError then
      andThen (show_tox_error args.pyqtType)
        (fun _ => ([], Outcome.exited 1))
    else emit []) fun _ =>
  andThen (if !args.keep then
      andThen (emit [Event.printTitle "Creating virtual environment"]) fun _ =>
      andThen (emit (delete_old_venv sys venvDir)) fun _ =>
      emit (create_venv venvDir)
    else emit []) fun _ =>
  andThen (upgrade_pip sys venvDir) fun _ =>
  andThen (if args.pyqtType = "binary" then
      install_pyqt_binary sys venvDir args.pyqtVersion
    else if args.pyqtType = "source" then
      install_pyqt_source sys venvDir args.pyqtVersion
    else if args.pyqtType = "link" then
      install_pyqt_link venvDir
    else ([], Outcome.assertionError)) fun _ =>
  andThen (install_requirements sys venvDir) fun _ =>
  install_qutebrowser sys venvDir

/-- One `add_argument` call of `parse_args`: the flag, whether it is
`action='store_true'`, its default and `choices`, and whether its help is
`argparse.SUPPRESS` (hidden from the externally visible `--help` surface). -/
structure ArgSpec where
  flag : String
  isStoreTrue : Bool := false
  dflt : Option String := none
  choices : Option (List String) := none
  suppressed : Bool := false
deriving Repr, DecidableEq

/-- The glob `requirements-pyqt-*.txt` over `misc/requirements/`. -/
def globPyqtReq (name : String) : Bool :=
  name.startsWith "requirements-pyqt-" && name.endsWith ".txt"

/-- `pathlib.Path(...).stem` for a `.txt` file name. -/
def stem (name : String) : String := name.dropRight 4

/-- `req.stem.split('-')[-1]`. -/
def versionOfReq (name : String) : String :=
  ((stem name).splitOn "-").getLastD ""

/-- The sort key `[int(c) for c in v.split('.')]` (Python would raise
`ValueError` on a non-numeric component; such malformed file names are
outside the scope of the claims and map to 0 here). -/
def versionKey (v : String) : List Nat :=
  (v.splitOn ".").map (fun c => c.toNat?.getD 0)

/-- Lexicographic comparison of Python's list-of-int sort keys. -/
def natListLe : List Nat → List Nat → Bool
  | [], _ => true
  | _ :: _, [] => false
  | a :: as, b :: bs =>
    if a < b then true else if b < a then false else natListLe as bs

/-- Insert into a `le`-sorted list. -/
def insertBy (le : α → α → Bool) (a : α) : List α → List α
  | [] => [a]
  | b :: bs => if le a b then a :: b :: bs else b :: insertBy le a bs

/-- Insertion sort (`sorted` with a key). -/
def sortBy (le : α → α → Bool) : List α → List α
  | [] => []
  | a :: as => insertBy le a (sortBy le as)

/-- `pyqt_versions()`: the distinct versions found in
`requirements-pyqt-*.txt` file names, numerically sorted, plus `'auto'`. -/
def pyqt_versions (sys : Sys) : List String :=
  let versionSet :=
    ((sys.reqFiles.filter globPyqtReq).map versionOfReq).dedup
  let versions :=
    sortBy (fun a b => natListLe (versionKey a) (versionKey b)) versionSet
  versions ++ ["auto"]

/-- `parse_args()`: the declared argument surface, one `ArgSpec` per
`add_argument` call, in declaration order. -/
def parse_args (sys : Sys) : List ArgSpec :=
  [ { flag := "--keep", isStoreTrue := true },
    { flag := "--venv-dir", dflt := some ".venv" },
    { flag := "--pyqt-version", choices := some (pyqt_versions sys),
      dflt := some "auto" },
    { flag := "--pyqt-type", choices := some ["binary", "source", "link"],
      dflt := some "binary" },
    { flag := "--tox-error", isStoreTrue := true, suppressed := true } ]

end Mkvenv

namespace Miscmodels

/-- The items of the category called `name` in a model (`[]` when absent). -/
def itemsOfCat (m : CompletionModel) (name : String) : List (List String) :=
  ((m.cats.find? (fun c => c.name = name)).map Category.items).getD []

/-- A sample environment whose session listing raises `OSError`. -/
def envW2 : Env :=
  { cmds := [], cmdToKeys := [], aliases := [], argsDebug := false,
    quickmarks := [], bookmarks := [], sessions := Except.error (),
    windows := [], configSections := [], completionLog := ["old entry"] }

/-- A sample environment with one ordinary and one internal session. -/
def envW8 : Env :=
  { cmds := [], cmdToKeys := [], aliases := [], argsDebug := false,
    quickmarks := [], bookmarks := [], sessions :=
      Except.ok ["default", "_autosave"],
    windows := [], configSections := [], completionLog := [] }

end Miscmodels

namespace Miscmodels

/-- A sample environment with a deprecated, a debug-only and a hidden
command next to a visible one. -/
def envW9 : Env :=
  { cmds := [⟨"open", "open a url", false, false, false⟩,
             ⟨"later", "open later", false, false, true⟩,
             ⟨"debug-dump", "dump state", true, false, false⟩,
             ⟨"follow-hint", "follow a hint", false, true, false⟩],
    cmdToKeys := [("open", ["o"])], aliases := [("o2", "open -t")],
    argsDebug := false, quickmarks := [], bookmarks := [],
    sessions := Except.ok [], windows := [], configSections := [],
    completionLog := [] }

/-- The description string `helptopic()` shows for an option when it does
not raise: `""` on a failed lookup, the first line of the stored
description otherwise. -/
def pyDescOf (sd : SectData) (opt : String) : String :=
  match lookupDesc sd opt with
  | none => ""
  | some s => (pySplitlines s).headD ""

/-- Section data with one option whose description has two lines. -/
def sdW3 : SectData :=
  ⟨["editor"], some [("editor", "The editor to use.\nMore text.")]⟩

/-- A sample environment on which `helptopic()` succeeds. -/
def envW3a : Env :=
  { cmds := [⟨"open", "open a url", false, false, false⟩],
    cmdToKeys := [], aliases := [], argsDebug := false, quickmarks := [],
    bookmarks := [], sessions := Except.ok [], windows := [],
    configSections := [("general", sdW3)], completionLog := [] }

/-- A sample environment with an option whose stored description is the
empty string. -/
def envW3c : Env :=
  { cmds := [⟨"open", "open a url", false, false, false⟩],
    cmdToKeys := [], aliases := [], argsDebug := false, quickmarks := [],
    bookmarks := [], sessions := Except.ok [], windows := [],
    configSections := [("general", ⟨["opt"], some [("opt", "")]⟩)],
    completionLog := [] }

end Miscmodels

namespace Mkvenv

/-- Whether an event mutates the virtualenv directory: the removal done by
`delete_old_venv` or the creation done by `create_venv`. -/
def isMutation : Event → Bool
  | Event.rmtree _ => true
  | Event.venvCreate _ _ => true
  | _ => false

/-- A sample system on which every subprocess fails with exit code 2. -/
def sysF : Sys :=
  { exitCodes := fun _ => 2, venvExists := fun _ => false, windows := false,
    repoRoot := "repo", reqFiles := [] }

/-- A sample system on which every subprocess succeeds and the virtualenv
directory exists. -/
def sysW : Sys :=
  { exitCodes := fun _ => 0, venvExists := fun _ => true, windows := false,
    repoRoot := "repo", reqFiles := [] }

/-- A sample requirements directory with two PyQt requirements files. -/
def sysW5 : Sys :=
  { exitCodes := fun _ => 0, venvExists := fun _ => false, windows := false,
    repoRoot := "repo",
    reqFiles := ["requirements-pyqt-5.15.txt", "requirements-pyqt-5.13.txt",
                 "requirements.txt"] }

end Mkvenv

namespace Miscmodels

theorem modifyIdx_of_id (l : List Category) (i : Nat) (f : Category → Category)
    (h : ∀ c, f c = c) : modifyIdx l i f = l := by
  induction l generalizing i with
  | nil => rfl
  | cons c cs ih =>
    cases i with
    | zero => simp [modifyIdx, h]
    | succ j => simp [modifyIdx, ih]

theorem modifyIdx_comp (l : List Category) (i : Nat)
    (f g : Category → Category) :
    modifyIdx (modifyIdx l i f) i g = modifyIdx l i (fun c => g (f c)) := by
  induction l generalizing i with
  | nil => rfl
  | cons c cs ih =>
    cases i with
    | zero => rfl
    | succ j => simp [modifyIdx, ih]

theorem foldl_newItem (α : Type) (f : α → List String) (l : List α)
    (m : CompletionModel) (cat : Nat) :
    l.foldl (fun acc x => newItem acc cat (f x)) m
      = { m with cats := (modifyIdx m.cats cat
            (fun c => { c with items := c.items ++ l.map f })) } := by
  induction l generalizing m with
  | nil =>
    simp only [List.foldl_nil, List.map_nil, List.append_nil]
    rw [modifyIdx_of_id]
    intro c
    rfl
  | cons a l ih =>
    simp only [List.foldl_cons, List.map_cons]
    rw [ih]
    simp only [newItem, modifyIdx_comp]
    simp [List.append_assoc]

theorem foldl_newItem_filter (α : Type) (p : α → Bool) (f : α → List String)
    (l : List α) (m : CompletionModel) (cat : Nat) :
    l.foldl (fun acc x => if p x then newItem acc cat (f x) else acc) m
      = { m with cats := (modifyIdx m.cats cat
            (fun c => { c with items := c.items ++ (l.filter p).map f })) } := by
  induction l generalizing m with
  | nil =>
    simp only [List.foldl_nil, List.filter_nil, List.map_nil, List.append_nil]
    rw [modifyIdx_of_id]
    intro c
    rfl
  | cons a l ih =>
    cases hp : p a with
    | false =>
      simp only [List.foldl_cons, List.filter_cons, hp, Bool.false_eq_true,
        ite_false]
      exact ih m
    | true =>
      simp only [List.foldl_cons, List.filter_cons, hp, ite_true]
      rw [ih]
      simp only [newItem, modifyIdx_comp, List.map_cons]
      simp [List.append_assoc]

/-- C6: `quickmark()` adds one item per `(name, url)` pair of the
quickmark-manager's marks (name first, url second) and `bookmark()` one item
per `(url, title)` pair of the bookmark-manager's marks (url first, title
second), each under a single category, in registry order. -/
theorem quickmark_bookmark_items (env : Env) :
    (quickmark env).1.cats
      = [⟨"Quickmarks", env.quickmarks.map (fun p => [p.1, p.2])⟩] ∧
    (bookmark env).1.cats
      = [⟨"Bookmarks", env.bookmarks.map (fun p => [p.1, p.2])⟩] := by
  constructor
  · show (({ cats := [⟨"Quickmarks", []⟩] } : CompletionModel) |>
      env.quickmarks.foldl (fun acc p => newItem acc 0 [p.1, p.2])).cats = _
    rw [foldl_newItem (String × String) (fun p => [p.1, p.2])]
    rfl
  · show (({ cats := [⟨"Bookmarks", []⟩] } : CompletionModel) |>
      env.bookmarks.foldl (fun acc p => newItem acc 0 [p.1, p.2])).cats = _
    rw [foldl_newItem (String × String) (fun p => [p.1, p.2])]
    rfl

/-- C7: every completion builder leaves every registry it consults
unchanged: the environment after any builder has exactly the registry
contents it had before the call (only the completion log may grow). -/
theorem builders_preserve_registries (env : Env) :
    Env.registries (command env).2 = Env.registries env ∧
    Env.registries (helptopic env).2 = Env.registries env ∧
    Env.registries (quickmark env).2 = Env.registries env ∧
    Env.registries (bookmark env).2 = Env.registries env ∧
    Env.registries (session env).2 = Env.registries env ∧
    Env.registries (buffer env).2 = Env.registries env ∧
    Env.registries (bind env).2 = Env.registries env := by
  refine ⟨?_, ?_, rfl, rfl, ?_, rfl, ?_⟩
  · cases h : _get_cmd_completions env false true "" <;> simp [command, h]
  · cases h : _get_cmd_completions env true false ":" with
    | none => simp [helptopic, h]
    | some cmdlist =>
      cases h2 : settingsItems env.configSections <;>
        simp [helptopic, h, h2]
  · cases h : env.sessions <;> simp [session, h, Env.registries]
  · cases h : _get_cmd_completions env true true "" <;> simp [bind, h]

/-- C2: when `list_sessions()` raises `OSError`, `session()` logs
"Failed to list sessions!" and still returns a completion model holding the
"Sessions" category with no items; the exception does not propagate. -/
theorem session_oserror_logged (env : Env)
    (h : env.sessions = Except.error ()) :
    (session env).1 = { cats := [⟨"Sessions", []⟩] } ∧
    (session env).2
      = { env with completionLog :=
            env.completionLog ++ ["Failed to list sessions!"] } := by
  constructor <;> simp [session, newCategory, h]

theorem session_oserror_logged_witness :
    (session envW2).1 = { cats := [⟨"Sessions", []⟩] } ∧
    (session envW2).2
      = { envW2 with completionLog :=
            envW2.completionLog ++ ["Failed to list sessions!"] } :=
  session_oserror_logged envW2 rfl

/-- C8: for every name returned by `list_sessions()`, the model built by
`session()` has an item for that name exactly when the name does not start
with an underscore. -/
theorem session_hides_internal (env : Env) (names : List String) (n : String)
    (h : env.sessions = Except.ok names) (hn : n ∈ names) :
    itemsOfCat (session env).1 "Sessions"
      = (names.filter (fun x => !x.startsWith "_")).map (fun x => [x]) ∧
    ([n] ∈ itemsOfCat (session env).1 "Sessions"
      ↔ n.startsWith "_" = false) := by
  have hfst : (session env).1
      = names.foldl (fun acc x =>
          if !x.startsWith "_" then newItem acc 0 [x] else acc)
          { cats := [⟨"Sessions", []⟩] } := by
    simp only [session, newCategory, h, List.nil_append, List.length_nil]
  have hitems : itemsOfCat (session env).1 "Sessions"
      = (names.filter (fun x => !x.startsWith "_")).map (fun x => [x]) := by
    rw [hfst,
      foldl_newItem_filter String (fun x => !x.startsWith "_") (fun x => [x])]
    rfl
  refine ⟨hitems, ?_⟩
  rw [hitems]
  constructor
  · intro hmem
    rcases List.mem_map.mp hmem with ⟨x, hx, hxe⟩
    have hxn : x = n := by
      simpa using congrArg (fun l => l.headD "") hxe
    rcases List.mem_filter.mp hx with ⟨_, hkeep⟩
    subst hxn
    simpa using hkeep
  · intro hns
    exact List.mem_map.mpr ⟨n, List.mem_filter.mpr ⟨hn, by simp [hns]⟩, rfl⟩

theorem session_hides_internal_witness :
    itemsOfCat (session envW8).1 "Sessions"
      = ((["default", "_autosave"] : List String).filter
          (fun x => !x.startsWith "_")).map (fun x => [x]) ∧
    (["default"] ∈ itemsOfCat (session envW8).1 "Sessions"
      ↔ "default".startsWith "_" = false) :=
  session_hides_internal envW8 ["default", "_autosave"] "default" rfl
    (by simp)

end Miscmodels

namespace Miscmodels

theorem foldl_append_filter (α β : Type) (p : α → Bool) (f : α → β)
    (l : List α) (acc : List β) :
    l.foldl (fun acc x => if p x then acc ++ [f x] else acc) acc
      = acc ++ (l.filter p).map f := by
  induction l generalizing acc with
  | nil => simp
  | cons a l ih =>
    cases hp : p a with
    | false =>
      simp only [List.foldl_cons, List.filter_cons, hp, Bool.false_eq_true,
        ite_false]
      exact ih acc
    | true =>
      simp only [List.foldl_cons, List.filter_cons, hp, ite_true,
        List.map_cons]
      rw [ih]
      simp

/-- C9: whenever `_get_cmd_completions` returns, its result consists of the
entries of exactly those commands that are not deprecated, are debug-only
only if the application runs with `--debug`, and are hidden only if
`include_hidden` is set — for every combination of `include_hidden` and
`include_aliases` — followed by the alias entries when requested. -/
theorem get_cmd_completions_visibility (env : Env)
    (includeHidden includeAliases : Bool) (pre : String)
    (res : List (String × String × String)) (c : Cmd)
    (h : _get_cmd_completions env includeHidden includeAliases pre
      = some res) :
    res = (env.cmds.filter (keptCmd env.argsDebug includeHidden)).map
            (cmdEntry env.cmdToKeys pre)
          ++ (if includeAliases then
                env.aliases.map (aliasEntry env.cmdToKeys)
              else []) ∧
    (keptCmd env.argsDebug includeHidden c = true ↔
      (c.deprecated = false ∧ (c.debug = true → env.argsDebug = true) ∧
       (c.hide = true → includeHidden = true))) := by
  constructor
  · cases hia : includeAliases with
    | true =>
      simp only [_get_cmd_completions, hia, ite_true] at h
      cases hne : env.cmds.isEmpty with
      | true => rw [hne] at h; simp at h
      | false =>
        rw [hne] at h
        simp only [Bool.false_eq_true, ite_false, Option.some.injEq] at h
        subst h
        rw [foldl_append_filter Cmd (String × String × String)
          (keptCmd env.argsDebug includeHidden)
          (cmdEntry env.cmdToKeys pre) env.cmds []]
        simp
    | false =>
      simp only [_get_cmd_completions, hia, Bool.false_eq_true, ite_false]
        at h
      cases hne : env.cmds.isEmpty with
      | true => rw [hne] at h; simp at h
      | false =>
        rw [hne] at h
        simp only [Bool.false_eq_true, ite_false, Option.some.injEq] at h
        subst h
        rw [foldl_append_filter Cmd (String × String × String)
          (keptCmd env.argsDebug includeHidden)
          (cmdEntry env.cmdToKeys pre) env.cmds []]
        simp
  · rcases c with ⟨nm, ds, dbg, hd, dp⟩
    simp only [keptCmd]
    cases dbg <;> cases hd <;> cases dp <;> cases includeHidden <;>
      cases henv : env.argsDebug <;> simp

theorem get_cmd_completions_visibility_witness :
    ([("open", "open a url", "o"),
      ("o2", "Alias for " ++ sq ++ "open -t" ++ sq, "")]
        : List (String × String × String))
      = (envW9.cmds.filter (keptCmd envW9.argsDebug false)).map
          (cmdEntry envW9.cmdToKeys "")
        ++ (if true then envW9.aliases.map (aliasEntry envW9.cmdToKeys)
            else []) ∧
    (keptCmd envW9.argsDebug false ⟨"later", "open later", false, false, true⟩
        = true ↔
      ((true : Bool) = false ∧ ((false : Bool) = true → envW9.argsDebug = true) ∧
       ((false : Bool) = true → (false : Bool) = true))) :=
  get_cmd_completions_visibility envW9 false true ""
    [("open", "open a url", "o"),
     ("o2", "Alias for " ++ sq ++ "open -t" ++ sq, "")]
    ⟨"later", "open later", false, false, true⟩ rfl

end Miscmodels

namespace Mkvenv

/-- C1: a non-zero subprocess exit status inside the virtualenv makes
`run_venv` print "Subprocess failed, exiting" and terminate the whole
process with that subprocess's return code, and the same holds for every
`pip_install` invocation (which runs through `run_venv`). -/
theorem run_venv_failure_exits (sys : Sys) (vd exe : String)
    (args pargs : List String) (c c2 : Int)
    (h1 : sys.exitCodes (runVenvArgv sys vd exe args) = c) (hc : c ≠ 0)
    (h2 : sys.exitCodes
      (runVenvArgv sys vd "python3" (["-m", "pip", "install"] ++ pargs))
        = c2)
    (hc2 : c2 ≠ 0) :
    run_venv sys vd exe args
      = ([Event.runProcess (runVenvArgv sys vd exe args),
          Event.printCol "Subprocess failed, exiting" "red"],
         Outcome.exited c) ∧
    (pip_install sys vd pargs).2 = Outcome.exited c2 ∧
    Event.printCol "Subprocess failed, exiting" "red"
      ∈ (pip_install sys vd pargs).1 := by
  refine ⟨?_, ?_, ?_⟩
  · simp [run_venv, h1, hc]
  · simp only [List.cons_append, List.nil_append] at h2
    simp [pip_install, andThen, emit, run_venv, h2, hc2]
  · simp only [List.cons_append, List.nil_append] at h2
    simp [pip_install, andThen, emit, run_venv, h2, hc2]

theorem run_venv_failure_exits_witness :
    run_venv sysF ".venv" "python3" []
      = ([Event.runProcess (runVenvArgv sysF ".venv" "python3" []),
          Event.printCol "Subprocess failed, exiting" "red"],
         Outcome.exited 2) ∧
    (pip_install sysF ".venv" ["-U", "pip"]).2 = Outcome.exited 2 ∧
    Event.printCol "Subprocess failed, exiting" "red"
      ∈ (pip_install sysF ".venv" ["-U", "pip"]).1 :=
  run_venv_failure_exits sysF ".venv" "python3" [] ["-U", "pip"] 2 2
    rfl (by decide) rfl (by decide)

theorem noMut_andThen (a : List Event × Outcome)
    (b : Unit → List Event × Outcome)
    (h1 : a.1.filter isMutation = [])
    (h2 : ((b ()).1).filter isMutation = []) :
    ((andThen a b).1).filter isMutation = [] := by
  rcases a with ⟨tr, o⟩
  cases o with
  | ok => simp only [andThen, List.filter_append] at *; simp [h1, h2]
  | exited c => simpa [andThen] using h1
  | assertionError => simpa [andThen] using h1

theorem noMut_run_venv (sys : Sys) (vd exe : String) (args : List String) :
    ((run_venv sys vd exe args).1).filter isMutation = [] := by
  by_cases h : sys.exitCodes (runVenvArgv sys vd exe args) = 0 <;>
    simp [run_venv, h, isMutation]

theorem noMut_pip_install (sys : Sys) (vd : String) (args : List String) :
    ((pip_install sys vd args).1).filter isMutation = [] := by
  unfold pip_install
  refine noMut_andThen _ _ rfl ?_
  exact noMut_run_venv sys vd "python3" (["-m", "pip", "install"] ++ args)

end Mkvenv

namespace Mkvenv

theorem noMut_upgrade_pip (sys : Sys) (vd : String) :
    ((upgrade_pip sys vd).1).filter isMutation = [] := by
  unfold upgrade_pip
  refine noMut_andThen _ _ rfl ?_
  exact noMut_pip_install sys vd ["-U", "pip"]

theorem noMut_install_pyqt_binary (sys : Sys) (vd version : String) :
    ((install_pyqt_binary sys vd version).1).filter isMutation = [] := by
  unfold install_pyqt_binary
  refine noMut_andThen _ _ rfl ?_
  exact noMut_pip_install sys vd _

theorem noMut_install_pyqt_source (sys : Sys) (vd version : String) :
    ((install_pyqt_source sys vd version).1).filter isMutation = [] := by
  unfold install_pyqt_source
  refine noMut_andThen _ _ rfl ?_
  exact noMut_pip_install sys vd _

theorem noMut_install_requirements (sys : Sys) (vd : String) :
    ((install_requirements sys vd).1).filter isMutation = [] := by
  unfold install_requirements
  refine noMut_andThen _ _ rfl ?_
  exact noMut_pip_install sys vd _

theorem noMut_install_qutebrowser (sys : Sys) (vd : String) :
    ((install_qutebrowser sys vd).1).filter isMutation = [] := by
  unfold install_qutebrowser
  refine noMut_andThen _ _ rfl ?_
  exact noMut_pip_install sys vd _

theorem noMut_show_tox_error (t : String) :
    ((show_tox_error t).1).filter isMutation = [] := by
  by_cases h1 : t = "link" <;> by_cases h2 : t = "binary" <;>
    simp [show_tox_error, h1, h2, isMutation]

/-- C10: when `--keep` is passed, `main()` emits no event that deletes or
creates the virtualenv directory (`delete_old_venv` / `create_venv` never
run), whatever the system state and the other arguments. -/
theorem main_keep_preserves_venv (sys : Sys) (args : Args)
    (h : args.keep = true) :
    ((main sys args).1).filter isMutation = [] := by
  unfold main
  rw [h]
  refine noMut_andThen _ _ rfl ?_
  refine noMut_andThen _ _ ?_ ?_
  · by_cases ht : args.toxError = true
    · simp only [ht, ite_true]
      exact noMut_andThen _ _ (noMut_show_tox_error args.pyqtType) rfl
    · simp only [ht, ite_false]
      rfl
  refine noMut_andThen _ _ ?_ ?_
  · simp only [Bool.not_true, Bool.false_eq_true, ite_false]
    rfl
  refine noMut_andThen _ _ (noMut_upgrade_pip sys args.venvDir) ?_
  refine noMut_andThen _ _ ?_ ?_
  · by_cases h1 : args.pyqtType = "binary"
    · simp only [h1, ite_true]
      exact noMut_install_pyqt_binary sys args.venvDir args.pyqtVersion
    · simp only [h1, ite_false]
      by_cases h2 : args.pyqtType = "source"
      · simp only [h2, ite_true]
        exact noMut_install_pyqt_source sys args.venvDir args.pyqtVersion
      · simp only [h2, ite_false]
        by_cases h3 : args.pyqtType = "link"
        · simp only [h3, ite_true]
          rfl
        · simp only [h3, ite_false]
          rfl
  refine noMut_andThen _ _ (noMut_install_requirements sys args.venvDir) ?_
  exact noMut_install_qutebrowser sys args.venvDir

theorem main_keep_preserves_venv_witness :
    ((main sysW { keep := true }).1).filter isMutation = [] :=
  main_keep_preserves_venv sysW { keep := true } rfl

end Mkvenv

namespace Mkvenv

/-- C4: with default arguments and all subprocesses succeeding, `main()`
performs, in this order: remove any existing virtualenv directory, create a
fresh virtualenv with pip, upgrade pip, install PyQt in the default binary
mode, install the other qutebrowser dependencies from `requirements.txt`,
and install qutebrowser itself in editable mode. -/
theorem main_default_step_order (sys : Sys)
    (hsucc : ∀ argv, sys.exitCodes argv = 0) :
    main sys {} =
      ([Event.chdir,
        Event.printTitle "Creating virtual environment"]
       ++ (if sys.venvExists ".venv" then
            [Event.printCol "$ rm -r .venv" "blue", Event.rmtree ".venv"]
          else [])
       ++ [Event.printCol "$ python3 -m venv .venv" "blue",
           Event.venvCreate ".venv" true,
           Event.printTitle "Upgrading pip",
           Event.printCol "venv$ pip install -U pip" "blue",
           Event.runProcess (venvBin sys ".venv" "python3"
             :: ["-m", "pip", "install", "-U", "pip"]),
           Event.printTitle "Installing PyQt from binary",
           Event.printCol ("No proprietary codec support will be available " ++
             "in qutebrowser.") "red",
           Event.printCol ("venv$ pip install " ++ String.intercalate " "
             ["-r", pyqt_requirements_file sys "auto",
              "--only-binary", "PyQt5,PyQtWebEngine"]) "blue",
           Event.runProcess (venvBin sys ".venv" "python3"
             :: ["-m", "pip", "install", "-r", pyqt_requirements_file sys "auto",
                 "--only-binary", "PyQt5,PyQtWebEngine"]),
           Event.printTitle "Installing other qutebrowser dependencies",
           Event.printCol ("venv$ pip install " ++ String.intercalate " "
             ["-r", sys.repoRoot ++ "/requirements.txt"]) "blue",
           Event.runProcess (venvBin sys ".venv" "python3"
             :: ["-m", "pip", "install", "-r",
                 sys.repoRoot ++ "/requirements.txt"]),
           Event.printTitle "Installing qutebrowser",
           Event.printCol ("venv$ pip install " ++ String.intercalate " "
             ["-e", sys.repoRoot]) "blue",
           Event.runProcess (venvBin sys ".venv" "python3"
             :: ["-m", "pip", "install", "-e", sys.repoRoot])],
       Outcome.ok) := by
  simp [main, andThen, emit, delete_old_venv, create_venv, upgrade_pip,
    pip_install, run_venv, runVenvArgv, install_pyqt_binary,
    install_requirements, install_qutebrowser, hsucc]
  rfl


theorem main_default_step_order_witness :
    main sysW {} =
      ([Event.chdir,
        Event.printTitle "Creating virtual environment",
        Event.printCol "$ rm -r .venv" "blue",
        Event.rmtree ".venv",
        Event.printCol "$ python3 -m venv .venv" "blue",
        Event.venvCreate ".venv" true,
        Event.printTitle "Upgrading pip",
        Event.printCol "venv$ pip install -U pip" "blue",
        Event.runProcess [".venv/bin/python3", "-m", "pip", "install",
          "-U", "pip"],
        Event.printTitle "Installing PyQt from binary",
        Event.printCol ("No proprietary codec support will be available " ++
          "in qutebrowser.") "red",
        Event.printCol ("venv$ pip install -r " ++
          "repo/misc/requirements/requirements-pyqt.txt " ++
          "--only-binary PyQt5,PyQtWebEngine") "blue",
        Event.runProcess [".venv/bin/python3", "-m", "pip", "install", "-r",
          "repo/misc/requirements/requirements-pyqt.txt",
          "--only-binary", "PyQt5,PyQtWebEngine"],
        Event.printTitle "Installing other qutebrowser dependencies",
        Event.printCol "venv$ pip install -r repo/requirements.txt" "blue",
        Event.runProcess [".venv/bin/python3", "-m", "pip", "install", "-r",
          "repo/requirements.txt"],
        Event.printTitle "Installing qutebrowser",
        Event.printCol "venv$ pip install -e repo" "blue",
        Event.runProcess [".venv/bin/python3", "-m", "pip", "install", "-e",
          "repo"]],
       Outcome.ok) :=
  main_default_step_order sysW (fun _ => rfl)

end Mkvenv

namespace Mkvenv

theorem mem_insertBy (α : Type) (le : α → α → Bool) (a x : α) (l : List α) :
    x ∈ insertBy le a l ↔ x = a ∨ x ∈ l := by
  induction l with
  | nil => simp [insertBy]
  | cons b bs ih =>
    by_cases h : le a b = true
    · simp [insertBy, h]
    · simp only [insertBy, h, Bool.false_eq_true, ite_false, List.mem_cons,
        ih]
      tauto

theorem mem_sortBy (α : Type) (le : α → α → Bool) (x : α) (l : List α) :
    x ∈ sortBy le l ↔ x ∈ l := by
  induction l with
  | nil => simp [sortBy]
  | cons a as ih => simp [sortBy, mem_insertBy, ih]

/-- C5 (counterexample): besides `--venv-dir`, `--pyqt-version` and
`--pyqt-type`, the parser also exposes the non-suppressed `--keep` flag, so
those three flags alone do not constitute the externally visible argument
surface. -/
theorem parse_args_keep_also_visible :
    ((parse_args sysW5).filter (fun a => !a.suppressed)).map ArgSpec.flag
      = ["--keep", "--venv-dir", "--pyqt-version", "--pyqt-type"] ∧
    "--keep" ∉ (["--venv-dir", "--pyqt-version", "--pyqt-type"]
      : List String) := by
  constructor
  · rfl
  · decide

/-- C5 (amended): the argument surface consists of `--keep`
(`store_true`), `--venv-dir` (default `.venv`), `--pyqt-version` (default
`auto`, restricted to the versions derived from the
`requirements-pyqt-*.txt` files plus `auto`), `--pyqt-type` (restricted to
`binary`/`source`/`link`, default `binary`), and the suppressed
`--tox-error` flag. -/
theorem parse_args_surface (sys : Sys) (v : String) :
    parse_args sys =
      [⟨"--keep", true, none, none, false⟩,
       ⟨"--venv-dir", false, some ".venv", none, false⟩,
       ⟨"--pyqt-version", false, some "auto", some (pyqt_versions sys),
        false⟩,
       ⟨"--pyqt-type", false, some "binary",
        some ["binary", "source", "link"], false⟩,
       ⟨"--tox-error", true, none, none, true⟩] ∧
    (v ∈ pyqt_versions sys ↔
      (v = "auto" ∨ v ∈ (sys.reqFiles.filter globPyqtReq).map versionOfReq)) := by
  constructor
  · rfl
  · simp only [pyqt_versions, List.mem_append, mem_sortBy, List.mem_dedup,
      List.mem_singleton]
    tauto

end Mkvenv

namespace Miscmodels

theorem optDesc_some_eq (sd : SectData) (opt : String) (d : String)
    (h : optDesc sd opt = some d) :
    d = pyDescOf sd opt ∧
    (lookupDesc sd opt = none → d = "") ∧
    ((lookupDesc sd opt).isSome = true →
      pySplitlines ((lookupDesc sd opt).getD "") ≠ [] ∧
      d = (pySplitlines ((lookupDesc sd opt).getD "")).headD "") := by
  cases hl : lookupDesc sd opt with
  | none =>
    simp only [optDesc, hl, Option.some.injEq] at h
    subst h
    simp [pyDescOf, hl]
  | some s =>
    simp only [optDesc, hl] at h
    cases hps : pySplitlines s with
    | nil => rw [hps] at h; cases h
    | cons a t =>
      rw [hps] at h
      simp only [List.head?_cons, Option.some.injEq] at h
      subst h
      simp [pyDescOf, hl, hps]

theorem sect_foldr_mem (sd : SectData) (sectname : String)
    (opts : List String) (l : List (List String))
    (h : opts.foldr
      (fun opt acc =>
        match optDesc sd opt, acc with
        | some dd, some rest =>
          some ([sectname ++ "->" ++ opt, dd] :: rest)
        | _, _ => none)
      (some []) = some l)
    (opt : String) (hopt : opt ∈ opts) :
    ∃ d, optDesc sd opt = some d ∧ [sectname ++ "->" ++ opt, d] ∈ l := by
  induction opts generalizing l with
  | nil => simp at hopt
  | cons o os ih =>
    rw [List.foldr_cons] at h
    cases ho : optDesc sd o with
    | none => rw [ho] at h; cases h
    | some d0 =>
      rw [ho] at h
      cases hr : os.foldr
          (fun opt acc =>
            match optDesc sd opt, acc with
            | some dd, some rest =>
              some ([sectname ++ "->" ++ opt, dd] :: rest)
            | _, _ => none)
          (some []) with
      | none => rw [hr] at h; cases h
      | some rest =>
        rw [hr] at h
        simp only [Option.some.injEq] at h
        subst h
        rcases List.mem_cons.mp hopt with rfl | hos
        · exact ⟨d0, ho, List.mem_cons_self _ _⟩
        · rcases ih rest hr hos with ⟨d, hd, hmem⟩
          exact ⟨d, hd, List.mem_cons_of_mem _ hmem⟩

theorem sections_foldr_mem (sections : List (String × SectData))
    (items : List (List String))
    (h : settingsItems sections = some items)
    (sect : String) (sd : SectData) (hmem : (sect, sd) ∈ sections) :
    ∃ l, sectItems sect sd = some l ∧ ∀ x ∈ l, x ∈ items := by
  induction sections generalizing items with
  | nil => simp at hmem
  | cons p rest ih =>
    rw [settingsItems, List.foldr_cons] at h
    cases hsec : sectItems p.1 p.2 with
    | none => rw [hsec] at h; cases h
    | some l0 =>
      rw [hsec] at h
      cases hr : settingsItems rest with
      | none => rw [settingsItems] at hr; rw [hr] at h; cases h
      | some r0 =>
        rw [settingsItems] at hr
        rw [hr] at h
        simp only [Option.some.injEq] at h
        subst h
        rcases List.mem_cons.mp hmem with heq | hrest
        · rcases p with ⟨s1, sd1⟩
          cases heq
          exact ⟨l0, hsec, fun x hx => List.mem_append_left _ hx⟩
        · rcases ih r0 (by rw [settingsItems]; exact hr) hrest with
            ⟨l, h1, h2⟩
          exact ⟨l, h1, fun x hx => List.mem_append_right _ (h2 x hx)⟩

theorem helptopic_models (env : Env)
    (cmdlist : List (String × String × String)) (items : List (List String))
    (h1 : _get_cmd_completions env true false ":" = some cmdlist)
    (h2 : settingsItems env.configSections = some items) :
    (helptopic env).1 = some
      { cats := [⟨"Commands", cmdlist.map (fun e => [e.1, e.2.1, e.2.2])⟩,
                 ⟨"Settings", items⟩] } := by
  simp only [helptopic, h1, h2, newCategory, List.nil_append,
    List.length_nil]
  rw [foldl_newItem (String × String × String)
    (fun e => [e.1, e.2.1, e.2.2])]
  rw [foldl_newItem (List String) (fun it => it)]
  simp [modifyIdx]

end Miscmodels

namespace Miscmodels

/-- C3 (amended): for every settings option of `configdata.DATA` whose
description lookup fails (`KeyError` or `AttributeError`), `helptopic()`
still adds the item to the "Settings" category with the empty string as
description; for options whose description lookup succeeds — whenever
`helptopic()` returns a model at all — the item carries the first line of
the description (an option whose stored description is the empty string
instead raises `IndexError`, so no model is returned, see the
counterexample). -/
theorem helptopic_settings_descriptions (env : Env) (m : CompletionModel)
    (sect : String) (sd : SectData) (opt : String)
    (hm : (helptopic env).1 = some m)
    (hmem : (sect, sd) ∈ env.configSections) (hopt : opt ∈ sd.opts) :
    optDesc sd opt = some (pyDescOf sd opt) ∧
    [sect ++ "->" ++ opt, pyDescOf sd opt] ∈ itemsOfCat m "Settings" ∧
    (lookupDesc sd opt = none → pyDescOf sd opt = "") ∧
    ((lookupDesc sd opt).isSome = true →
      pySplitlines ((lookupDesc sd opt).getD "") ≠ [] ∧
      pyDescOf sd opt
        = (pySplitlines ((lookupDesc sd opt).getD "")).headD "") := by
  cases h1 : _get_cmd_completions env true false ":" with
  | none => simp [helptopic, h1] at hm
  | some cmdlist =>
    cases h2 : settingsItems env.configSections with
    | none => simp [helptopic, h1, h2] at hm
    | some items =>
      have hmod := helptopic_models env cmdlist items h1 h2
      rw [hm] at hmod
      injection hmod with hMeq
      subst hMeq
      obtain ⟨l, hsec, hsub⟩ :=
        sections_foldr_mem env.configSections items h2 sect sd hmem
      obtain ⟨d, hd, hmem2⟩ := sect_foldr_mem sd sect sd.opts l hsec opt hopt
      obtain ⟨hdp, hnone, hsome⟩ := optDesc_some_eq sd opt d hd
      subst hdp
      refine ⟨hd, ?_, hnone, hsome⟩
      have hic : itemsOfCat
          ({ cats := [⟨"Commands", cmdlist.map (fun e => [e.1, e.2.1, e.2.2])⟩,
                      ⟨"Settings", items⟩] } : CompletionModel) "Settings"
          = items := by
        simp [itemsOfCat, List.find?]
      rw [hic]
      exact hsub _ hmem2

/-- C3 (counterexample): an option whose stored description is the empty
string has a successful description lookup, yet `helptopic()` raises
`IndexError` (`"".splitlines()` is `[]`, so `[0]` fails) and returns no
model — in particular no item with a first line is added. -/
theorem helptopic_empty_desc_raises :
    lookupDesc ⟨["opt"], some [("opt", "")]⟩ "opt" = some "" ∧
    (helptopic envW3c).1 = none :=
  ⟨rfl, rfl⟩

theorem helptopic_settings_descriptions_witness :
    optDesc sdW3 "editor" = some (pyDescOf sdW3 "editor") ∧
    ["general" ++ "->" ++ "editor", pyDescOf sdW3 "editor"]
      ∈ itemsOfCat
          ({ cats := [⟨"Commands", [[":open", "open a url", ""]]⟩,
                      ⟨"Settings",
                       [["general->editor", "The editor to use."]]⟩] }
            : CompletionModel) "Settings" ∧
    (lookupDesc sdW3 "editor" = none → pyDescOf sdW3 "editor" = "") ∧
    ((lookupDesc sdW3 "editor").isSome = true →
      pySplitlines ((lookupDesc sdW3 "editor").getD "") ≠ [] ∧
      pyDescOf sdW3 "editor"
        = (pySplitlines ((lookupDesc sdW3 "editor").getD "")).headD "") :=
  helptopic_settings_descriptions envW3a
    { cats := [⟨"Commands", [[":open", "open a url", ""]]⟩,
               ⟨"Settings", [["general->editor", "The editor to use."]]⟩] }
    "general" sdW3 "editor" rfl (by simp [envW3a]) (by simp [sdW3])

end Miscmodels
